import Mathlib

/-!
Shallow embedding of the `mcp-integration-examples` repository:
a weather MCP tool server (registering the `get-alerts` tool) and a
command-line MCP chat client.  External collaborators (HTTP fetch, the LLM
API, the MCP tool connection, stdin) are modelled as explicit oracle
parameters; every function of the repository is translated directly from
the TypeScript source.
-/

namespace McpExamples

/-! ## JavaScript string primitives

The source uses a handful of JavaScript built-ins; they are modelled on the
character data of `String` so that they compute inside the kernel. -/

/-- JavaScript `x || d` on an optional string `x`: an absent value and the
empty string (both falsy in JS) yield the default `d`. -/
def jsOr (o : Option String) (d : String) : String :=
  match o with
  | none => d
  | some s => if s = "" then d else s

/-- Models JavaScript `String.prototype.toUpperCase` on the ASCII range
(which covers the two-letter state codes the tool receives): uppercase every
character. -/
def jsToUpper (s : String) : String := ⟨s.data.map Char.toUpper⟩

/-- Models JavaScript `String.prototype.toLowerCase` on the ASCII range:
lowercase every character. -/
def jsToLower (s : String) : String := ⟨s.data.map Char.toLower⟩

/-- Models JavaScript `Array.prototype.join(sep)` on an array of strings. -/
def jsJoin (sep : String) : List String → String
  | [] => ""
  | [x] => x
  | x :: xs => x ++ sep ++ jsJoin sep xs

/-- Models JavaScript `String.prototype.endsWith(suffix)`: the character
data of `suffix` is a suffix of the character data of `s`.  This comparison
is exact, hence case-sensitive. -/
def jsEndsWith (s suffix : String) : Bool :=
  suffix.data.isSuffixOf s.data

/-! ## Weather tool server (`app.ts` of the weather server) -/

namespace Weather

/-- `NWS_API_BASE` constant from the server source. -/
def NWS_API_BASE : String := "https://api.weather.gov"

/-- The `properties` object of an `AlertFeature`; every field is optional in
the TypeScript interface. -/
structure AlertProperties where
  event : Option String
  areaDesc : Option String
  severity : Option String
  status : Option String
  headline : Option String
deriving Repr, DecidableEq

/-- `AlertFeature` interface: a record with a `properties` object. -/
structure AlertFeature where
  properties : AlertProperties
deriving Repr, DecidableEq

/-- `AlertsResponse` interface: `features: AlertFeature[]`.  The field is
`Option` because the handler guards it with `data.features || []`, so an
absent field must be representable. -/
structure AlertsResponse where
  features : Option (List AlertFeature)
deriving Repr, DecidableEq

/-- `formatAlert`: the six lines of the source array, joined with `"\n"`. -/
def formatAlert (f : AlertFeature) : String :=
  jsJoin "\n"
    [ "Event: " ++ jsOr f.properties.event "Unknown",
      "Area: " ++ jsOr f.properties.areaDesc "Unknown",
      "Severity: " ++ jsOr f.properties.severity "Unknown",
      "Status: " ++ jsOr f.properties.status "Unknown",
      "Headline: " ++ jsOr f.properties.headline "No headline",
      "---" ]

/-- Outcome of one `fetch` call, as observed by `makeNWSRequest`: either the
promise rejects (network error), or a response arrives with an HTTP status
and a parsed JSON body (`none` models a body whose parsing throws, which is
also caught by the `try`). -/
inductive FetchOutcome (T : Type) where
  | thrown
  | resp (status : Nat) (body : Option T)
deriving Repr, DecidableEq

/-- `response.ok` of the WHATWG fetch API: status in the range 200..299. -/
def respOk (status : Nat) : Bool := 200 ≤ status && status < 300

/-- `makeNWSRequest`: returns the parsed body on a 2xx response, and `null`
(here `none`) when the status is not ok, the body fails to parse, or the
fetch itself throws — every failure path is caught and mapped to `null`. -/
def makeNWSRequest {T : Type} (outcome : FetchOutcome T) : Option T :=
  match outcome with
  | .thrown => none
  | .resp status body => if respOk status then body else none

/-- One entry of the content block list a tool handler returns; the source
writes the literal `type: "text"`. -/
structure ContentItem where
  type : String
  text : String
deriving Repr, DecidableEq

/-- The value returned by the `get-alerts` handler: `{ content: [...] }`. -/
structure ToolResponse where
  content : List ContentItem
deriving Repr, DecidableEq

/-- The `get-alerts` tool handler.  `fetch` is the oracle describing what
the single HTTP GET to the constructed URL would observe.  The first
component of the result is the URL the handler requested (its one
observable effect); the second is the returned tool response. -/
def getAlertsRun (fetch : String → FetchOutcome AlertsResponse)
    (state : String) : String × ToolResponse :=
  let stateCode := jsToUpper state
  let url := NWS_API_BASE ++ "/alerts/active?area=" ++ stateCode
  match makeNWSRequest (fetch url) with
  | none =>
      (url, ⟨[⟨"text",
        "Failed to fetch alerts for " ++ stateCode ++
          ". Please try another state."⟩]⟩)
  | some data =>
      let features := data.features.getD []
      if features.length = 0 then
        (url, ⟨[⟨"text", "No alerts found for " ++ stateCode ++ "."⟩]⟩)
      else
        let formattedAlerts := features.map formatAlert
        (url, ⟨[⟨"text",
          "Active alerts for " ++ stateCode ++ ":\n\n" ++
            jsJoin "\n" formattedAlerts⟩]⟩)

end Weather

/-! ## Chat client (`client.ts` and `chat-loop.ts`) -/

namespace Client

/-- `isValidServerScriptType`: `serverScriptPath.endsWith(type)`. -/
def isValidServerScriptType (serverScriptPath ty : String) : Bool :=
  jsEndsWith serverScriptPath ty

/-- `validateServerScript`: throws unless the path ends in `.py` or `.js`.
The thrown `Error` is modelled as the `Except.error` carrying its message. -/
def validateServerScript (serverScriptPath : String) : Except String Unit :=
  if !isValidServerScriptType serverScriptPath ".py" &&
      !isValidServerScriptType serverScriptPath ".js" then
    Except.error ("Invalid server script: " ++ serverScriptPath ++
      ". Must be a .js or .py file.")
  else
    Except.ok ()

/-- `getCommandScriptPath`: platform-conditional interpreter choice.
`platform` models `process.platform` and `execPath` models
`process.execPath`. -/
def getCommandScriptPath (platform execPath : String) (isPy : Bool) :
    String :=
  if isPy then (if platform = "win32" then "python" else "python3")
  else execPath

/-- `getCommand`: validates the script path, then selects the command; a
validation error propagates to the caller. -/
def getCommand (platform execPath serverScriptPath : String) :
    Except String String :=
  match validateServerScript serverScriptPath with
  | Except.error e => Except.error e
  | Except.ok _ =>
      Except.ok (getCommandScriptPath platform execPath
        (isValidServerScriptType serverScriptPath ".py"))

/-- The externally visible steps `connectToServer` performs after computing
the command: constructing/spawning the stdio transport subprocess,
connecting the MCP client over it, and listing the server's tools. -/
inductive ConnectEffect where
  | spawn (command : String) (arg : String)
  | connect
  | listTools
deriving Repr, DecidableEq

/-- `connectToServer`, reduced to its effect trace: `getCommand` runs first
(line 117 of `client.ts`); only when it returns is the `StdioClientTransport`
constructed (line 119), connected (line 124) and the tool list fetched
(line 126).  A validation error propagates (the `catch` logs and rethrows),
so the error case carries no effects at all. -/
def connectToServerTrace (platform execPath serverScriptPath : String) :
    Except String (List ConnectEffect) :=
  match getCommand platform execPath serverScriptPath with
  | Except.error e => Except.error e
  | Except.ok command =>
      Except.ok [ConnectEffect.spawn command serverScriptPath,
        ConnectEffect.connect, ConnectEffect.listTools]

/-- One entry of the Anthropic `messages` array: a role tag and its content
(tool results are pushed back as plain content, `result.content as string`). -/
structure Message where
  role : String
  content : String
deriving Repr, DecidableEq

/-- A content block of an LLM completion, as far as `processResponse`
inspects it: plain text, or a tool invocation.  `input` carries the
`JSON.stringify` rendering of the tool arguments. -/
inductive ContentBlock where
  | text (t : String)
  | tool_use (name : String) (input : String)
deriving Repr, DecidableEq

/-- The value `#mcp.callTool` resolves to, as far as the client reads it:
its `content` field, which the source casts to `string`. -/
structure ToolCallResult where
  content : String
deriving Repr, DecidableEq

/-- The mutable per-query state of `ModelContextProtocolClient`:
`#finalText`, `#toolResults`, and the `messages` array threaded through
`processQuery`/`processResponse`. -/
structure ClientState where
  finalText : List String
  toolResults : List ToolCallResult
  messages : List Message
deriving Repr, DecidableEq

/-- The external calls `processResponse` can issue: one MCP tool call, or
one LLM completion request. -/
inductive ClientEffect where
  | toolCall (name : String) (args : String)
  | llmRequest (msgs : List Message)
deriving Repr, DecidableEq

/-- The source expression
`newContent[0].type === "text" ? newContent[0].text : ""` applied to one
content block: its text when textual, the empty string otherwise. -/
def followUpText (c : ContentBlock) : String :=
  match c with
  | ContentBlock.text t => t
  | _ => ""

/-- Result of one `processResponse` call: the updated client state, the
external calls issued (in order), and whether the call threw.  The state
mutations performed before a throw persist, because `#finalText` and
`#toolResults` are instance fields. -/
structure ProcOut where
  state : ClientState
  effects : List ClientEffect
  threw : Bool
deriving Repr, DecidableEq

/-- `processResponse`: a `text` block is appended to `#finalText`; a
`tool_use` block calls the tool, records the result, appends the
`[Calling tool …]` notice, pushes the tool result as a `user` message,
requests one more LLM completion, and appends its first block's text if that
block is textual and `""` otherwise.  When the follow-up completion's
content is empty, `newContent[0].type` throws a `TypeError` (modelled by
`threw := true`). -/
def processResponse (llm : List Message → List ContentBlock)
    (callTool : String → String → ToolCallResult)
    (content : ContentBlock) (st : ClientState) : ProcOut :=
  match content with
  | ContentBlock.text t =>
      ⟨{ st with finalText := st.finalText ++ [t] }, [], false⟩
  | ContentBlock.tool_use toolName toolArgs =>
      let result := callTool toolName toolArgs
      let st1 := { st with toolResults := st.toolResults ++ [result] }
      let st2 := { st1 with finalText := st1.finalText ++
        ["[Calling tool " ++ toolName ++ " with arguments " ++ toolArgs ++ "]"] }
      let st3 := { st2 with messages := st2.messages ++
        [⟨"user", result.content⟩] }
      match llm st3.messages with
      | [] =>
          ⟨st3, [ClientEffect.toolCall toolName toolArgs,
            ClientEffect.llmRequest st3.messages], true⟩
      | c :: _ =>
          ⟨{ st3 with finalText := st3.finalText ++ [followUpText c] },
            [ClientEffect.toolCall toolName toolArgs,
              ClientEffect.llmRequest st3.messages], false⟩

/-- `chatLoop` (`chat-loop.ts`), over a finite list of input lines:
each line is compared lowercased with `"quit"`; on a match the loop breaks,
otherwise the line is forwarded to `processQuery` and the response printed.
The result is the list of (query, response) pairs processed, in order. -/
def chatLoop (processQuery : String → String) :
    List String → List (String × String)
  | [] => []
  | message :: rest =>
      if jsToLower message = "quit" then []
      else (message, processQuery message) :: chatLoop processQuery rest

end Client

end McpExamples

/-! ## Auxiliary lemmas about the weather formatting -/

namespace McpExamples

namespace Weather

/-- The URL requested by `getAlertsRun` is the same in every branch. -/
theorem getAlertsRun_fst (fetch : String → FetchOutcome AlertsResponse)
    (s : String) :
    (getAlertsRun fetch s).1 =
      NWS_API_BASE ++ "/alerts/active?area=" ++ jsToUpper s := by
  cases h : makeNWSRequest
      (fetch (NWS_API_BASE ++ "/alerts/active?area=" ++ jsToUpper s)) with
  | none => simp [getAlertsRun, h]
  | some data =>
      by_cases hl : data.features.getD [] = ([] : List AlertFeature) <;>
        simp [getAlertsRun, h, hl]

/-- Every formatted alert block ends in a final separator line `---`. -/
theorem formatAlert_terminated (f : AlertFeature) :
    ∃ p, formatAlert f = p ++ "\n---" := by
  refine ⟨"Event: " ++ jsOr f.properties.event "Unknown" ++ "\n" ++
    "Area: " ++ jsOr f.properties.areaDesc "Unknown" ++ "\n" ++
    "Severity: " ++ jsOr f.properties.severity "Unknown" ++ "\n" ++
    "Status: " ++ jsOr f.properties.status "Unknown" ++ "\n" ++
    "Headline: " ++ jsOr f.properties.headline "No headline", ?_⟩
  apply String.ext
  simp [formatAlert, jsJoin, String.data_append, List.append_assoc]

/-- An absent `event` renders as `Unknown`. -/
theorem formatAlert_event_default (f : AlertFeature)
    (h : f.properties.event = none) :
    ∃ r, formatAlert f = "Event: Unknown\n" ++ r := by
  refine ⟨"Area: " ++ jsOr f.properties.areaDesc "Unknown" ++ "\n" ++
    "Severity: " ++ jsOr f.properties.severity "Unknown" ++ "\n" ++
    "Status: " ++ jsOr f.properties.status "Unknown" ++ "\n" ++
    "Headline: " ++ jsOr f.properties.headline "No headline" ++ "\n" ++
    "---", ?_⟩
  apply String.ext
  simp [formatAlert, jsJoin, jsOr, h, String.data_append, List.append_assoc]

/-- An absent `areaDesc` renders as `Unknown`. -/
theorem formatAlert_area_default (f : AlertFeature)
    (h : f.properties.areaDesc = none) :
    ∃ p r, formatAlert f = p ++ "\nArea: Unknown\n" ++ r := by
  refine ⟨"Event: " ++ jsOr f.properties.event "Unknown",
    "Severity: " ++ jsOr f.properties.severity "Unknown" ++ "\n" ++
    "Status: " ++ jsOr f.properties.status "Unknown" ++ "\n" ++
    "Headline: " ++ jsOr f.properties.headline "No headline" ++ "\n" ++
    "---", ?_⟩
  apply String.ext
  simp [formatAlert, jsJoin, jsOr, h, String.data_append, List.append_assoc]

/-- An absent `severity` renders as `Unknown`. -/
theorem formatAlert_severity_default (f : AlertFeature)
    (h : f.properties.severity = none) :
    ∃ p r, formatAlert f = p ++ "\nSeverity: Unknown\n" ++ r := by
  refine ⟨"Event: " ++ jsOr f.properties.event "Unknown" ++ "\n" ++
    "Area: " ++ jsOr f.properties.areaDesc "Unknown",
    "Status: " ++ jsOr f.properties.status "Unknown" ++ "\n" ++
    "Headline: " ++ jsOr f.properties.headline "No headline" ++ "\n" ++
    "---", ?_⟩
  apply String.ext
  simp [formatAlert, jsJoin, jsOr, h, String.data_append, List.append_assoc]

/-- An absent `status` renders as `Unknown`. -/
theorem formatAlert_status_default (f : AlertFeature)
    (h : f.properties.status = none) :
    ∃ p r, formatAlert f = p ++ "\nStatus: Unknown\n" ++ r := by
  refine ⟨"Event: " ++ jsOr f.properties.event "Unknown" ++ "\n" ++
    "Area: " ++ jsOr f.properties.areaDesc "Unknown" ++ "\n" ++
    "Severity: " ++ jsOr f.properties.severity "Unknown",
    "Headline: " ++ jsOr f.properties.headline "No headline" ++ "\n" ++
    "---", ?_⟩
  apply String.ext
  simp [formatAlert, jsJoin, jsOr, h, String.data_append, List.append_assoc]

/-- An absent `headline` renders as `No headline`. -/
theorem formatAlert_headline_default (f : AlertFeature)
    (h : f.properties.headline = none) :
    ∃ p, formatAlert f = p ++ "\nHeadline: No headline\n---" := by
  refine ⟨"Event: " ++ jsOr f.properties.event "Unknown" ++ "\n" ++
    "Area: " ++ jsOr f.properties.areaDesc "Unknown" ++ "\n" ++
    "Severity: " ++ jsOr f.properties.severity "Unknown" ++ "\n" ++
    "Status: " ++ jsOr f.properties.status "Unknown", ?_⟩
  apply String.ext
  simp [formatAlert, jsJoin, jsOr, h, String.data_append, List.append_assoc]

end Weather

end McpExamples

/-! ## Claims about the weather tool server -/

namespace McpExamples

namespace Weather

/-- C3: for every `get-alerts` invocation where the remote HTTP request
fails — a thrown network error or a non-2xx status — the handler returns
exactly the fixed failure sentence naming the uppercased state code.  The
handler is a total function, so no exception escapes to its caller. -/
theorem claim_C3_request_failure_message
    (fetch : String → FetchOutcome AlertsResponse) (s : String)
    (h : fetch (NWS_API_BASE ++ "/alerts/active?area=" ++ jsToUpper s) =
        FetchOutcome.thrown ∨
      ∃ status body,
        fetch (NWS_API_BASE ++ "/alerts/active?area=" ++ jsToUpper s) =
          FetchOutcome.resp status body ∧ respOk status = false) :
    (getAlertsRun fetch s).2 = ⟨[⟨"text",
      "Failed to fetch alerts for " ++ jsToUpper s ++
        ". Please try another state."⟩]⟩ := by
  rcases h with h | ⟨status, body, h, hok⟩
  · simp [getAlertsRun, makeNWSRequest, h]
  · simp [getAlertsRun, makeNWSRequest, h, hok]

/-- C3 witness: a thrown network error on input `ca` yields the fixed
failure sentence for `CA`. -/
theorem claim_C3_witness :
    (getAlertsRun (fun _ => FetchOutcome.thrown) "ca").2 = ⟨[⟨"text",
      "Failed to fetch alerts for CA. Please try another state."⟩]⟩ :=
  claim_C3_request_failure_message (fun _ => FetchOutcome.thrown) "ca"
    (Or.inl rfl)

/-- C4: when the response carries `N > 0` features, the output is the header
plus exactly `N` formatted blocks (one per feature, in order), each block is
terminated by a `---` separator line, and each absent optional property
renders as its default text (`Unknown` for event, area, severity and status,
`No headline` for the headline). -/
theorem claim_C4_formatted_blocks
    (fetch : String → FetchOutcome AlertsResponse) (s : String)
    (status : Nat) (resp : AlertsResponse) (fs : List AlertFeature)
    (hresp : fetch (NWS_API_BASE ++ "/alerts/active?area=" ++ jsToUpper s) =
      FetchOutcome.resp status (some resp))
    (hok : respOk status = true)
    (hfs : resp.features = some fs)
    (hne : fs ≠ []) :
    ∃ bs : List String,
      bs = fs.map formatAlert ∧
      bs.length = fs.length ∧
      (getAlertsRun fetch s).2 = ⟨[⟨"text",
        "Active alerts for " ++ jsToUpper s ++ ":\n\n" ++ jsJoin "\n" bs⟩]⟩ ∧
      (∀ b ∈ bs, ∃ p, b = p ++ "\n---") ∧
      (∀ f ∈ fs,
        (f.properties.event = none →
          ∃ r, formatAlert f = "Event: Unknown\n" ++ r) ∧
        (f.properties.areaDesc = none →
          ∃ p r, formatAlert f = p ++ "\nArea: Unknown\n" ++ r) ∧
        (f.properties.severity = none →
          ∃ p r, formatAlert f = p ++ "\nSeverity: Unknown\n" ++ r) ∧
        (f.properties.status = none →
          ∃ p r, formatAlert f = p ++ "\nStatus: Unknown\n" ++ r) ∧
        (f.properties.headline = none →
          ∃ p, formatAlert f = p ++ "\nHeadline: No headline\n---")) := by
  refine ⟨fs.map formatAlert, rfl, by simp, ?_, ?_, ?_⟩
  · simp [getAlertsRun, makeNWSRequest, hresp, hok, hfs, hne]
  · intro b hb
    obtain ⟨f, hf, rfl⟩ := List.mem_map.mp hb
    exact formatAlert_terminated f
  · intro f hf
    exact ⟨formatAlert_event_default f, formatAlert_area_default f,
      formatAlert_severity_default f, formatAlert_status_default f,
      formatAlert_headline_default f⟩

/-- C4 witness: a single feature with every optional property absent. -/
theorem claim_C4_witness :
    ∃ bs : List String,
      bs = List.map formatAlert [⟨⟨none, none, none, none, none⟩⟩] ∧
      bs.length = ([⟨⟨none, none, none, none, none⟩⟩] :
        List AlertFeature).length ∧
      (getAlertsRun (fun _ => FetchOutcome.resp 200
        (some ⟨some [⟨⟨none, none, none, none, none⟩⟩]⟩)) "ca").2 =
        ⟨[⟨"text",
          "Active alerts for " ++ jsToUpper "ca" ++ ":\n\n" ++
            jsJoin "\n" bs⟩]⟩ ∧
      (∀ b ∈ bs, ∃ p, b = p ++ "\n---") ∧
      (∀ f ∈ ([⟨⟨none, none, none, none, none⟩⟩] : List AlertFeature),
        (f.properties.event = none →
          ∃ r, formatAlert f = "Event: Unknown\n" ++ r) ∧
        (f.properties.areaDesc = none →
          ∃ p r, formatAlert f = p ++ "\nArea: Unknown\n" ++ r) ∧
        (f.properties.severity = none →
          ∃ p r, formatAlert f = p ++ "\nSeverity: Unknown\n" ++ r) ∧
        (f.properties.status = none →
          ∃ p r, formatAlert f = p ++ "\nStatus: Unknown\n" ++ r) ∧
        (f.properties.headline = none →
          ∃ p, formatAlert f = p ++ "\nHeadline: No headline\n---")) :=
  claim_C4_formatted_blocks
    (fun _ => FetchOutcome.resp 200
      (some ⟨some [⟨⟨none, none, none, none, none⟩⟩]⟩))
    "ca" 200 ⟨some [⟨⟨none, none, none, none, none⟩⟩]⟩
    [⟨⟨none, none, none, none, none⟩⟩] rfl rfl rfl (by simp)

/-- C6: the handler uppercases the region code before building the request
URL: the requested URL is always the fixed endpoint applied to the
uppercased input, and two inputs with the same uppercasing request the same
URL. -/
theorem claim_C6_url_uppercased
    (fetch : String → FetchOutcome AlertsResponse) (s t : String)
    (h : jsToUpper s = jsToUpper t) :
    (getAlertsRun fetch s).1 =
      NWS_API_BASE ++ "/alerts/active?area=" ++ jsToUpper s ∧
    (getAlertsRun fetch s).1 = (getAlertsRun fetch t).1 := by
  refine ⟨getAlertsRun_fst fetch s, ?_⟩
  rw [getAlertsRun_fst fetch s, getAlertsRun_fst fetch t, h]

/-- C6 witness: inputs `ca` and `CA` both request the URL for `CA`. -/
theorem claim_C6_witness :
    (getAlertsRun (fun _ => FetchOutcome.thrown) "ca").1 =
      NWS_API_BASE ++ "/alerts/active?area=" ++ jsToUpper "ca" ∧
    (getAlertsRun (fun _ => FetchOutcome.thrown) "ca").1 =
      (getAlertsRun (fun _ => FetchOutcome.thrown) "CA").1 :=
  claim_C6_url_uppercased (fun _ => FetchOutcome.thrown) "ca" "CA" rfl

/-- C7: when the remote call succeeds with an empty features list, the
output is exactly the fixed no-alerts sentence for the uppercased code, and
no alert entries. -/
theorem claim_C7_no_alerts_message
    (fetch : String → FetchOutcome AlertsResponse) (s : String)
    (status : Nat) (resp : AlertsResponse)
    (hresp : fetch (NWS_API_BASE ++ "/alerts/active?area=" ++ jsToUpper s) =
      FetchOutcome.resp status (some resp))
    (hok : respOk status = true)
    (hfeat : resp.features.getD [] = []) :
    (getAlertsRun fetch s).2 = ⟨[⟨"text",
      "No alerts found for " ++ jsToUpper s ++ "."⟩]⟩ := by
  simp [getAlertsRun, makeNWSRequest, hresp, hok, hfeat]

/-- C7 witness: a 200 response with zero features for input `ny`. -/
theorem claim_C7_witness :
    (getAlertsRun (fun _ => FetchOutcome.resp 200 (some ⟨some []⟩)) "ny").2 =
      ⟨[⟨"text", "No alerts found for NY."⟩]⟩ :=
  claim_C7_no_alerts_message
    (fun _ => FetchOutcome.resp 200 (some ⟨some []⟩)) "ny" 200
    ⟨some []⟩ rfl rfl rfl

/-- C9: on every invocation and in all three outcome branches, the handler
returns a content block list with exactly one entry, of type `text`. -/
theorem claim_C9_single_text_entry
    (fetch : String → FetchOutcome AlertsResponse) (s : String) :
    ∃ txt, (getAlertsRun fetch s).2 = ⟨[⟨"text", txt⟩]⟩ := by
  cases h : makeNWSRequest
      (fetch (NWS_API_BASE ++ "/alerts/active?area=" ++ jsToUpper s)) with
  | none =>
      refine ⟨"Failed to fetch alerts for " ++ jsToUpper s ++
        ". Please try another state.", ?_⟩
      simp [getAlertsRun, h]
  | some data =>
      by_cases hl : data.features.getD [] = ([] : List AlertFeature)
      · refine ⟨"No alerts found for " ++ jsToUpper s ++ ".", ?_⟩
        simp [getAlertsRun, h, hl]
      · refine ⟨"Active alerts for " ++ jsToUpper s ++ ":\n\n" ++
          jsJoin "\n" ((data.features.getD []).map formatAlert), ?_⟩
        simp [getAlertsRun, h, hl]

end Weather

end McpExamples

/-! ## Claims about the chat client -/

namespace McpExamples

namespace Client

/-- C5: for every server script path whose extension is neither `.js` nor
`.py`, `connectToServer` fails with the synchronously raised validation
error; the error trace carries no effects, so no subprocess transport is
constructed or spawned. -/
theorem claim_C5_invalid_extension_fails_before_spawn
    (platform execPath p : String)
    (h : isValidServerScriptType p ".py" = false ∧
      isValidServerScriptType p ".js" = false) :
    connectToServerTrace platform execPath p =
      Except.error ("Invalid server script: " ++ p ++
        ". Must be a .js or .py file.") := by
  simp [connectToServerTrace, getCommand, validateServerScript, h.1, h.2]

/-- C5 witness: a `.sh` script is rejected before any effect happens. -/
theorem claim_C5_witness :
    connectToServerTrace "linux" "/usr/bin/node" "server.sh" =
      Except.error "Invalid server script: server.sh. Must be a .js or .py file." :=
  claim_C5_invalid_extension_fails_before_spawn "linux" "/usr/bin/node"
    "server.sh" ⟨by decide, by decide⟩

/-- C10: script validation is case-sensitive: a path is accepted exactly
when its character data ends in the lowercase suffix `.js` or `.py`;
in particular `.PY`, `.Py` and `.JS` are rejected while `.py` and `.js`
are accepted. -/
theorem claim_C10_extension_case_sensitive :
    (∀ p : String, validateServerScript p = Except.ok () ↔
      (".js".data <:+ p.data ∨ ".py".data <:+ p.data)) ∧
    validateServerScript "server.PY" ≠ Except.ok () ∧
    validateServerScript "server.Py" ≠ Except.ok () ∧
    validateServerScript "server.JS" ≠ Except.ok () ∧
    validateServerScript "server.py" = Except.ok () ∧
    validateServerScript "server.js" = Except.ok () := by
  have hiff : ∀ q suf : String, jsEndsWith q suf = true ↔ suf.data <:+ q.data := by
    intro q suf
    simp [jsEndsWith, List.isSuffixOf_iff_suffix]
  refine ⟨?_, ?_, ?_, ?_, rfl, rfl⟩
  · intro p
    rw [← hiff p ".js", ← hiff p ".py"]
    by_cases hpy : jsEndsWith p ".py" = true <;>
      by_cases hjs : jsEndsWith p ".js" = true <;>
        simp [validateServerScript, isValidServerScriptType, hpy, hjs]
  · intro h
    rw [show validateServerScript "server.PY" = Except.error
      "Invalid server script: server.PY. Must be a .js or .py file." from rfl] at h
    exact Except.noConfusion h
  · intro h
    rw [show validateServerScript "server.Py" = Except.error
      "Invalid server script: server.Py. Must be a .js or .py file." from rfl] at h
    exact Except.noConfusion h
  · intro h
    rw [show validateServerScript "server.JS" = Except.error
      "Invalid server script: server.JS. Must be a .js or .py file." from rfl] at h
    exact Except.noConfusion h

/-- C1: processing one `tool_use` content block issues exactly one tool call
followed by exactly one LLM follow-up request — never a second tool call,
whatever content the follow-up completion contains — and appends to the
output exactly one `[Calling tool …]` notice plus at most one follow-up
block. -/
theorem claim_C1_one_tool_call_no_recursion
    (llm : List Message → List ContentBlock)
    (callTool : String → String → ToolCallResult)
    (name args : String) (st : ClientState) :
    (∃ msgs,
      (processResponse llm callTool (ContentBlock.tool_use name args)
        st).effects =
        [ClientEffect.toolCall name args, ClientEffect.llmRequest msgs]) ∧
    ((processResponse llm callTool (ContentBlock.tool_use name args)
        st).state.finalText =
      st.finalText ++
        ["[Calling tool " ++ name ++ " with arguments " ++ args ++ "]"] ∨
     ∃ t,
      (processResponse llm callTool (ContentBlock.tool_use name args)
          st).state.finalText =
        st.finalText ++
          ["[Calling tool " ++ name ++ " with arguments " ++ args ++ "]",
            t]) := by
  cases hc : llm (st.messages ++ [⟨"user", (callTool name args).content⟩]) with
  | nil =>
      constructor
      · exact ⟨st.messages ++ [⟨"user", (callTool name args).content⟩],
          by simp [processResponse, hc]⟩
      · left
        simp [processResponse, hc]
  | cons c rest =>
      constructor
      · exact ⟨st.messages ++ [⟨"user", (callTool name args).content⟩],
          by simp [processResponse, hc]⟩
      · right
        refine ⟨followUpText c, ?_⟩
        simp [processResponse, hc, List.append_assoc]

/-- C2 counterexample: the raw tool result is recorded in the tool-results
buffer, not appended to the output buffer `#finalText`: after handling a
`tool_use` block with tool result `RAWRESULT`, the output buffer holds only
the notice and the follow-up text, and `RAWRESULT` is not an element of it. -/
theorem claim_C2_counterexample :
    (processResponse (fun _ => [ContentBlock.text "OK"])
        (fun _ _ => ⟨"RAWRESULT"⟩)
        (ContentBlock.tool_use "get-alerts" "null")
        ⟨[], [], [⟨"user", "q"⟩]⟩).state.finalText =
      ["[Calling tool get-alerts with arguments null]", "OK"] ∧
    (processResponse (fun _ => [ContentBlock.text "OK"])
        (fun _ _ => ⟨"RAWRESULT"⟩)
        (ContentBlock.tool_use "get-alerts" "null")
        ⟨[], [], [⟨"user", "q"⟩]⟩).state.toolResults = [⟨"RAWRESULT"⟩] ∧
    "RAWRESULT" ∉
      (processResponse (fun _ => [ContentBlock.text "OK"])
        (fun _ _ => ⟨"RAWRESULT"⟩)
        (ContentBlock.tool_use "get-alerts" "null")
        ⟨[], [], [⟨"user", "q"⟩]⟩).state.finalText := by
  refine ⟨rfl, rfl, ?_⟩
  decide

/-- C2 (amended): handling a `tool_use` block appends the `tool called`
notice to the output buffer, records the raw tool result in the separate
tool-results buffer, splices the tool result into the conversation as a new
`user` turn, and issues exactly one more LLM completion request, appending
its first content block's text if textual and the empty string otherwise. -/
theorem claim_C2_tool_use_processing
    (llm : List Message → List ContentBlock)
    (callTool : String → String → ToolCallResult)
    (name args : String) (st : ClientState)
    (c : ContentBlock) (cs : List ContentBlock)
    (h : llm (st.messages ++ [⟨"user", (callTool name args).content⟩]) =
      c :: cs) :
    processResponse llm callTool (ContentBlock.tool_use name args) st =
      ⟨⟨st.finalText ++
          ["[Calling tool " ++ name ++ " with arguments " ++ args ++ "]",
            followUpText c],
        st.toolResults ++ [callTool name args],
        st.messages ++ [⟨"user", (callTool name args).content⟩]⟩,
      [ClientEffect.toolCall name args,
        ClientEffect.llmRequest
          (st.messages ++ [⟨"user", (callTool name args).content⟩])],
      false⟩ := by
  simp [processResponse, h, List.append_assoc]

/-- C2 witness: a concrete `tool_use` block processed end to end. -/
theorem claim_C2_witness :
    processResponse (fun _ => [ContentBlock.text "OK"])
        (fun _ _ => ⟨"RAW"⟩) (ContentBlock.tool_use "t" "null")
        ⟨[], [], []⟩ =
      ⟨⟨["[Calling tool t with arguments null]", "OK"], [⟨"RAW"⟩],
        [⟨"user", "RAW"⟩]⟩,
      [ClientEffect.toolCall "t" "null",
        ClientEffect.llmRequest [⟨"user", "RAW"⟩]],
      false⟩ :=
  claim_C2_tool_use_processing (fun _ => [ContentBlock.text "OK"])
    (fun _ _ => ⟨"RAW"⟩) "t" "null" ⟨[], [], []⟩
    (ContentBlock.text "OK") [] rfl

/-- C8: the chat loop forwards exactly the input lines before the first
line that lowercases to `quit`, in order, and a leading quit in any letter
case (for instance `QuIt`) terminates the loop with no query issued. -/
theorem claim_C8_quit_terminates
    (pq : String → String) (lines : List String) :
    (chatLoop pq lines).map Prod.fst =
      lines.takeWhile (fun l => !(jsToLower l == "quit")) ∧
    chatLoop pq ("QuIt" :: lines) = [] := by
  constructor
  · induction lines with
    | nil => rfl
    | cons m rest ih =>
        by_cases h : jsToLower m = "quit"
        · simp [chatLoop, h]
        · simp [chatLoop, h, ih]
  · simp [chatLoop, show jsToLower "QuIt" = "quit" from rfl]

end Client

end McpExamples
